import Mathlib

/-!
Shallow embedding of the simple_naptha_mcp repository
(src/simple_naptha_mcp/server.py and src/simple_naptha_mcp/run.py).

server.py: the tool layer of MCPWebsiteFetcher — the handlers fetch_website,
echo_message, say_hello, the dispatch function fetch_tool, and the descriptor
list returned by list_tools.  Outbound HTTP is modelled as an environment
function from requests to responses; httpx response.raise_for_status raises
exactly when the status is not 2xx.

run.py: the process-lifecycle layer — the module globals server_instance,
server_thread and keep_running become a RunState record, and start_server,
stop_server and run become state-passing functions.  A Python detail carried
over faithfully: the nested run_server function assigns server_instance
without a global declaration (the global statement in the enclosing
start_server does not reach a nested def), so the uvicorn instance it creates
is bound to a local of run_server and the module-level server_instance is
never written; the embedding records the thread-local instance in the
ServerThread value and leaves RunState.server_instance untouched.  The
cooperative-shutdown model of the serving loop: during join(timeout) the
thread finishes exactly when its own instance's should_exit flag is set.
-/

/-- One HTTP response as seen by httpx: a status code and a body. -/
structure HttpResponse where
  status : Nat
  text : String
deriving DecidableEq

/-- The GET request fetch_website issues: url, headers and redirect policy. -/
structure HttpRequest where
  url : String
  headers : List (String × String)
  follow_redirects : Bool
deriving DecidableEq

/-- A content item of a Tool Invocation Result
(types.TextContent, types.ImageContent, types.EmbeddedResource). -/
inductive Content where
  | text (s : String)
  | image (data : String)
  | embedded (data : String)
deriving DecidableEq

/-- The errors the tool layer raises:
ValueError "Missing required argument ..." and ValueError "Unknown tool: ..."
from fetch_tool, and the httpx.HTTPStatusError from raise_for_status. -/
inductive ToolError where
  | missingArgument (field : String)
  | unknownTool (name : String)
  | fetchError (status : Nat)
deriving DecidableEq

/-- A tool-call argument mapping (the arguments dict; values are strings for
the three built-in tools). -/
abbrev Arguments := List (String × String)

/-- Dict membership plus lookup: arguments[key] when key is present. -/
def getArg : Arguments → String → Option String
  | [], _ => none
  | (k, v) :: rest, key => if k = key then some v else getArg rest key

/-- The fixed identifying header fetch_website sends. -/
def user_agent_header : List (String × String) :=
  [("User-Agent", "MCP Test Server (github.com/modelcontextprotocol/python-sdk)")]

/-- The request fetch_website issues for a url: the fixed User-Agent header
and follow_redirects=True from the AsyncClient construction. -/
def fetch_request (url : String) : HttpRequest :=
  { url := url, headers := user_agent_header, follow_redirects := true }

/-- MCPWebsiteFetcher.fetch_website: GET the url, raise_for_status (httpx
raises unless the status is 2xx), and return the body as one text item. -/
def fetch_website (get : HttpRequest → HttpResponse) (url : String) :
    Except ToolError (List Content) :=
  let response := get (fetch_request url)
  if 200 ≤ response.status ∧ response.status < 300 then
    Except.ok [Content.text response.text]
  else
    Except.error (ToolError.fetchError response.status)

/-- MCPWebsiteFetcher.echo_message: the message verbatim as one text item. -/
def echo_message (message : String) : Except ToolError (List Content) :=
  Except.ok [Content.text message]

/-- MCPWebsiteFetcher.say_hello: the greeting as one text item. -/
def say_hello (name : String := "World") : Except ToolError (List Content) :=
  Except.ok [Content.text ("Hello, " ++ name ++ "!")]

/-- The call_tool handler fetch_tool: dispatch on the tool name, check the
hard-coded required argument, and call the matching handler. -/
def fetch_tool (get : HttpRequest → HttpResponse) (name : String)
    (arguments : Arguments) : Except ToolError (List Content) :=
  if name = "fetch" then
    match getArg arguments "url" with
    | none => Except.error (ToolError.missingArgument "url")
    | some url => fetch_website get url
  else if name = "echo" then
    match getArg arguments "message" with
    | none => Except.error (ToolError.missingArgument "message")
    | some message => echo_message message
  else if name = "hello" then
    say_hello ((getArg arguments "name").getD "World")
  else
    Except.error (ToolError.unknownTool name)

/-- One property entry of an input schema: field name, type, description. -/
structure SchemaProperty where
  name : String
  type : String
  description : String
deriving DecidableEq

/-- The inputSchema document of a tool descriptor. -/
structure InputSchema where
  type : String
  required : List String
  properties : List SchemaProperty
deriving DecidableEq

/-- A types.Tool descriptor. -/
structure Tool where
  name : String
  description : String
  inputSchema : InputSchema
deriving DecidableEq

/-- The list_tools handler: the three descriptors, verbatim and in order. -/
def list_tools : List Tool :=
  [ { name := "fetch",
      description := "Fetches a website and returns its content",
      inputSchema :=
        { type := "object", required := ["url"],
          properties :=
            [{ name := "url", type := "string", description := "URL to fetch" }] } },
    { name := "echo",
      description := "Returns the provided message",
      inputSchema :=
        { type := "object", required := ["message"],
          properties :=
            [{ name := "message", type := "string",
               description := "Message to echo back" }] } },
    { name := "hello",
      description := "Returns a greeting message",
      inputSchema :=
        { type := "object", required := [],
          properties :=
            [{ name := "name", type := "string",
               description := "Name to greet (defaults to \x27World\x27)" }] } } ]

/-- A uvicorn.Server as far as the lifecycle code observes it: the
should_exit flag its serve loop polls. -/
structure UvServer where
  should_exit : Bool
deriving DecidableEq

/-- The thread spawned by start_server: the port it serves, the uvicorn
instance created inside run_server (a local of run_server — the enclosing
global declaration does not reach the nested function), and liveness. -/
structure ServerThread where
  port : Nat
  localInstance : UvServer
  alive : Bool
deriving DecidableEq

/-- The module-level state of run.py: the globals server_instance,
server_thread and keep_running. -/
structure RunState where
  server_instance : Option UvServer
  server_thread : Option ServerThread
  keep_running : Bool
deriving DecidableEq

/-- The state at import time: both handles None, keep_running True. -/
def initialState : RunState :=
  { server_instance := none, server_thread := none, keep_running := true }

/-- The guard run uses (server_thread and server_thread.is_alive()): the
code's notion of the server being up. -/
def is_running (s : RunState) : Bool :=
  match s.server_thread with
  | none => false
  | some t => t.alive

/-- The fixed grace period time.sleep(1) at the end of start_server. -/
def startup_grace_seconds : Nat := 1

/-- start_server(port): spawn the run_server thread and, after the one-second
grace sleep, return True unconditionally.  The bind outcome is only visible
in the thread: when the bind fails the serve coroutine raises and the thread
is dead after the grace period; the return value does not depend on it.
The new uvicorn instance lives in the thread (run_server binds
server_instance as a local), so the module-level server_instance field is
left unchanged. -/
def start_server (bindOk : Bool) (port : Nat) (s : RunState) :
    RunState × Bool :=
  let t : ServerThread :=
    { port := port, localInstance := { should_exit := false }, alive := bindOk }
  ({ s with server_thread := some t }, true)

/-- stop_server(): if the module-level server_instance is set, set its
should_exit flag; then if the thread is alive, join it with a five-second
timeout — cooperatively, the serve loop exits within the timeout exactly
when its own instance's should_exit flag is set, and otherwise the join
times out and the thread stays alive.  Nothing is reset to None. -/
def stop_server (s : RunState) : RunState :=
  let s1 :=
    match s.server_instance with
    | some inst => { s with server_instance := some { inst with should_exit := true } }
    | none => s
  match s1.server_thread with
  | some t =>
      if t.alive then
        { s1 with server_thread := some { t with alive := !t.localInstance.should_exit } }
      else s1
  | none => s1

/-- The result dict run returns. -/
structure RunResult where
  status : String
  message : String
deriving DecidableEq

/-- The success message of run. -/
def success_message (port : Nat) : String :=
  "MCP server started for this run on port " ++ toString port

/-- The error message of run's unreachable failure branch. -/
def failure_message (port : Nat) : String :=
  "Failed to start MCP server on port " ++ toString port

/-- run(module_run): parse the input (parseOk models whether the
AgentRunInput/InputSchema construction raises), start the server when the
thread is absent or dead, and return the status dict; the except handler
calls stop_server and re-raises (Except.error models the propagated
exception). -/
def run (parseOk : Bool) (bindOk : Bool) (port : Nat) (s : RunState) :
    RunState × Except Unit RunResult :=
  if parseOk then
    if is_running s then
      (s, Except.ok { status := "success", message := success_message port })
    else
      let started := start_server bindOk port s
      if started.2 then
        (started.1, Except.ok { status := "success", message := success_message port })
      else
        (started.1, Except.ok { status := "error", message := failure_message port })
  else
    (stop_server s, Except.error ())

/-- A trivial HTTP environment for concrete instantiations. -/
def trivial_get : HttpRequest → HttpResponse :=
  fun _ => { status := 200, text := "" }

/-- An HTTP environment whose every response is a 500. -/
def get500 : HttpRequest → HttpResponse :=
  fun _ => { status := 500, text := "oops" }

/-- An HTTP environment whose every response is a 200 with body "body". -/
def get200 : HttpRequest → HttpResponse :=
  fun _ => { status := 200, text := "body" }

/-- C9: list_tools returns exactly the three descriptors named "fetch",
"echo", "hello", in that order, each name occurring once. -/
theorem c9_list_tools_names :
    list_tools.map Tool.name = ["fetch", "echo", "hello"] ∧
    (list_tools.map Tool.name).Nodup := by
  constructor
  · rfl
  · decide

/-- C8: echo is an identity passthrough: for every message m, invoking the
echo tool with that message returns m unchanged as a single text item. -/
theorem c8_echo_identity (get : HttpRequest → HttpResponse) (m : String) :
    fetch_tool get "echo" [("message", m)] = Except.ok [Content.text m] := by
  unfold fetch_tool
  rw [if_neg (by decide), if_pos rfl]
  simp [getArg, echo_message]

/-- C7: the hello tool returns "Hello, {name}!" where name is the "name"
argument when present and "World" otherwise; in particular invoke with no
arguments gives "Hello, World!" and with name "Ada" gives "Hello, Ada!". -/
theorem c7_hello_greeting (get : HttpRequest → HttpResponse) (args : Arguments) :
    fetch_tool get "hello" args =
      Except.ok [Content.text ("Hello, " ++ (getArg args "name").getD "World" ++ "!")] ∧
    fetch_tool get "hello" [] = Except.ok [Content.text "Hello, World!"] ∧
    fetch_tool get "hello" [("name", "Ada")] = Except.ok [Content.text "Hello, Ada!"] := by
  refine ⟨?_, ?_, ?_⟩ <;>
    · unfold fetch_tool
      rw [if_neg (by decide), if_neg (by decide), if_pos rfl]
      rfl

/-- C5: the dispatch of fetch_tool: a name absent from the registered
descriptors fails with unknownTool; a field required by the named tool's
input schema and absent from the arguments fails with missingArgument on
that field (in particular echo with no arguments gives missingArgument
"message" and fetch with no arguments gives missingArgument "url"); and
with the required field present the registered handler is called. -/
theorem c5_invoke_dispatch (get : HttpRequest → HttpResponse)
    (name : String) (args : Arguments) :
    (name ∉ list_tools.map Tool.name →
      fetch_tool get name args = Except.error (ToolError.unknownTool name)) ∧
    (∀ t ∈ list_tools, t.name = name → ∀ f ∈ t.inputSchema.required,
      getArg args f = none →
      fetch_tool get name args = Except.error (ToolError.missingArgument f)) ∧
    fetch_tool get "echo" [] = Except.error (ToolError.missingArgument "message") ∧
    fetch_tool get "fetch" [] = Except.error (ToolError.missingArgument "url") ∧
    (∀ u, getArg args "url" = some u →
      fetch_tool get "fetch" args = fetch_website get u) ∧
    (∀ m, getArg args "message" = some m →
      fetch_tool get "echo" args = echo_message m) ∧
    fetch_tool get "hello" args =
      say_hello ((getArg args "name").getD "World") := by
  refine ⟨?_, ?_, ?_, ?_, ?_, ?_, ?_⟩
  · intro hname
    simp only [list_tools, List.map, List.mem_cons, List.not_mem_nil] at hname
    push_neg at hname
    obtain ⟨h1, h2, h3, -⟩ := hname
    unfold fetch_tool
    rw [if_neg h1, if_neg h2, if_neg h3]
  · intro t ht hname f hf hnone
    simp only [list_tools, List.mem_cons, List.not_mem_nil, or_false] at ht
    rcases ht with ht | ht | ht <;> subst ht <;> subst hname
    · have hf' : f = "url" := by simpa using hf
      subst hf'
      unfold fetch_tool
      rw [if_pos rfl, hnone]
    · have hf' : f = "message" := by simpa using hf
      subst hf'
      unfold fetch_tool
      rw [if_neg (by decide), if_pos rfl, hnone]
    · simp at hf
  · rfl
  · rfl
  · intro u hu
    unfold fetch_tool
    rw [if_pos rfl, hu]
  · intro m hm
    unfold fetch_tool
    rw [if_neg (by decide), if_pos rfl, hm]
  · unfold fetch_tool
    rw [if_neg (by decide), if_neg (by decide), if_pos rfl]

/-- C5 witness: the dispatch theorem at concrete inputs — an unregistered
name, echo and fetch with empty arguments, and echo with its required
argument present. -/
theorem c5_invoke_dispatch_witness :
    fetch_tool trivial_get "nosuch" [] = Except.error (ToolError.unknownTool "nosuch") ∧
    fetch_tool trivial_get "echo" [] = Except.error (ToolError.missingArgument "message") ∧
    fetch_tool trivial_get "fetch" [] = Except.error (ToolError.missingArgument "url") ∧
    fetch_tool trivial_get "echo" [("message", "x")] = echo_message "x" :=
  ⟨(c5_invoke_dispatch trivial_get "nosuch" []).1 (by decide),
   (c5_invoke_dispatch trivial_get "echo" []).2.2.1,
   (c5_invoke_dispatch trivial_get "fetch" []).2.2.2.1,
   (c5_invoke_dispatch trivial_get "echo" [("message", "x")]).2.2.2.2.2.1 "x" (by decide)⟩

/-- C6: the fetch tool issues a GET for the given url with the fixed
User-Agent header and redirect following; a non-2xx response status (for
example 500) fails with fetchError carrying that status, and a 2xx status
(for example 200) returns the response body verbatim as one text item. -/
theorem c6_fetch_http (get : HttpRequest → HttpResponse) (url : String) :
    fetch_request url =
      { url := url,
        headers := [("User-Agent",
          "MCP Test Server (github.com/modelcontextprotocol/python-sdk)")],
        follow_redirects := true } ∧
    (¬ (200 ≤ (get (fetch_request url)).status ∧ (get (fetch_request url)).status < 300) →
      fetch_tool get "fetch" [("url", url)] =
        Except.error (ToolError.fetchError (get (fetch_request url)).status)) ∧
    (200 ≤ (get (fetch_request url)).status → (get (fetch_request url)).status < 300 →
      fetch_tool get "fetch" [("url", url)] =
        Except.ok [Content.text (get (fetch_request url)).text]) := by
  refine ⟨rfl, ?_, ?_⟩
  · intro hbad
    unfold fetch_tool
    rw [if_pos rfl]
    show fetch_website get url = _
    unfold fetch_website
    rw [if_neg hbad]
  · intro h1 h2
    unfold fetch_tool
    rw [if_pos rfl]
    show fetch_website get url = _
    unfold fetch_website
    rw [if_pos ⟨h1, h2⟩]

/-- C6 witness: the fetch theorem under an environment answering 500 (the
error case) and one answering 200 with body "body" (the success case). -/
theorem c6_fetch_http_witness :
    fetch_tool get500 "fetch" [("url", "http://a")] =
      Except.error (ToolError.fetchError 500) ∧
    fetch_tool get200 "fetch" [("url", "http://a")] =
      Except.ok [Content.text "body"] :=
  ⟨(c6_fetch_http get500 "http://a").2.1 (by decide),
   (c6_fetch_http get200 "http://a").2.2 (by decide) (by decide)⟩

/-- C1 counterexample: after one successful start the server is running, yet
a second start_server call does not fail with AlreadyRunning — it returns
True (success) again. -/
theorem c1_second_start_counterexample :
    is_running (start_server true 8000 initialState).1 = true ∧
    (start_server true 8000 (start_server true 8000 initialState).1).2 = true := by
  exact ⟨rfl, rfl⟩

/-- C1 amended: start_server never reports AlreadyRunning — for every port
and state, running or not, it spawns the background thread and returns True
after the fixed one-second grace period; with a successful bind the state it
leaves is running; double-start protection lives in run, which skips
start_server when the existing thread is alive and still returns a success
result, and which launches the context when not running and returns the same
success result. -/
theorem c1_start_amended (bindOk : Bool) (port : Nat) (s : RunState) :
    (start_server bindOk port s).2 = true ∧
    startup_grace_seconds = 1 ∧
    is_running (start_server true port s).1 = true ∧
    (is_running s = true →
      run true bindOk port s =
        (s, Except.ok { status := "success", message := success_message port })) ∧
    (is_running s = false →
      run true bindOk port s =
        ((start_server bindOk port s).1,
          Except.ok { status := "success", message := success_message port })) := by
  refine ⟨rfl, rfl, rfl, ?_, ?_⟩
  · intro hrun
    unfold run
    rw [if_pos rfl, if_pos hrun]
  · intro hnot
    have hne : ¬ is_running s = true := by rw [hnot]; exact Bool.false_ne_true
    simp only [run, if_neg hne, if_true, start_server]

/-- C1 witness: the amended start theorem at concrete inputs — once in the
running state reached by one start_server from the initial state (run skips
the start and reports success) and once in the not-running initial state
(run launches the context and reports the same success). -/
theorem c1_start_amended_witness :
    run true true 9000 (start_server true 8000 initialState).1 =
      ((start_server true 8000 initialState).1,
        Except.ok { status := "success", message := success_message 9000 }) ∧
    run true true 8000 initialState =
      ((start_server true 8000 initialState).1,
        Except.ok { status := "success", message := success_message 8000 }) :=
  ⟨(c1_start_amended true 9000 (start_server true 8000 initialState).1).2.2.2.1 rfl,
   (c1_start_amended true 8000 initialState).2.2.2.2 rfl⟩

/-- C2: evaluating stop_server in the running state reached from one
start_server: the module-level server_instance is still none (run_server
bound its instance as a local), so no should_exit flag is set, the join
times out, and the state is still running afterwards — while stop_server in
the initial (not-running) state is indeed a no-op. -/
theorem c2_stop_code_bug_eval :
    (start_server true 8000 initialState).1.server_instance = none ∧
    is_running (stop_server (start_server true 8000 initialState).1) = true ∧
    (stop_server (start_server true 8000 initialState).1).server_thread =
      some { port := 8000, localInstance := { should_exit := false }, alive := true } ∧
    stop_server initialState = initialState := by
  exact ⟨rfl, rfl, rfl, rfl⟩

/-- C3 counterexample: when the bind fails (the spawned thread dies during
the grace period), start_server still returns True — not failure. -/
theorem c3_bind_failure_counterexample :
    (start_server false 8000 initialState).2 = true := rfl

/-- C3 amended: start_server cannot observe the bind outcome from the
spawning thread: on a failed bind it still returns True; only the second
half of the claim holds — the crashed thread leaves the state not-running. -/
theorem c3_bind_failure_amended (port : Nat) (s : RunState) :
    (start_server false port s).2 = true ∧
    is_running (start_server false port s).1 = false :=
  ⟨rfl, rfl⟩

/-- C4: when the startup path raises (the input parsing step fails), run
calls stop_server on the current state and propagates the exception: the
resulting state is exactly stop_server of the entry state and the result is
the re-raised error, for every state, port and bind outcome. -/
theorem c4_run_exception_stops (bindOk : Bool) (port : Nat) (s : RunState) :
    run false bindOk port s = (stop_server s, Except.error ()) := rfl

/-- C10: start_server unconditionally returns True, so run's error branch is
unreachable: whenever the inputs parse, a normally-returning run yields a
result whose status is "success", never "error". -/
theorem c10_no_error_status (bindOk : Bool) (port : Nat) (s : RunState) :
    (start_server bindOk port s).2 = true ∧
    ∀ r : RunResult, (run true bindOk port s).2 = Except.ok r →
      r.status = "success" := by
  refine ⟨rfl, ?_⟩
  intro r hr
  by_cases hrun : is_running s = true
  · simp only [run, if_pos hrun, if_true, Except.ok.injEq] at hr
    rw [← hr]
  · simp only [run, if_neg hrun, if_true, start_server, Except.ok.injEq] at hr
    rw [← hr]

/-- C10 witness: a concrete run from the initial state returns the success
status. -/
theorem c10_no_error_status_witness :
    (start_server true 8000 initialState).2 = true ∧
    (RunResult.mk "success" (success_message 8000)).status = "success" :=
  ⟨(c10_no_error_status true 8000 initialState).1,
   (c10_no_error_status true 8000 initialState).2
     { status := "success", message := success_message 8000 } rfl⟩
